import Mathlib

/-!
Verification development for the zook-api admin backend.

Each definition below is a shallow embedding of a function or data shape of
the TypeScript sources (file and line references are given in the doc
comments).  HTTP responses are modelled by the `Resp` type mirroring
`ResponseHandler.success`/`ResponseHandler.error`; the relational store is
modelled by explicit lists of rows, and every mutating controller returns
both its HTTP response and the state of the touched row(s) after the call,
so that "the row is unchanged" is an actual equation.
-/

namespace Zook

/-- Admin roles, from `AdminRole` in src/types/admin.types.ts. -/
inductive AdminRole where
  | super_admin
  | admin
  | finance
  | support
  | operator
deriving DecidableEq, Repr

/-- The authenticated principal attached to a request by the auth middleware
(`req.admin`): id, role and optional location claims decoded from the JWT. -/
structure Principal where
  id : String
  role : AdminRole
  country_id : Option String
  city_id : Option String
deriving DecidableEq, Repr

/-- Outcome of a controller call, mirroring `ResponseHandler.success`
(status, message, data) and `ResponseHandler.error` (status, message). -/
inductive Resp (α : Type) where
  | success (status : Nat) (message : String) (data : α)
  | error (status : Nat) (message : String)
deriving DecidableEq, Repr

/-- The HTTP status carried by a response. -/
def Resp.statusOf {α : Type} : Resp α → Nat
  | .success s _ _ => s
  | .error s _ => s

/-- Whether the response is a success envelope. -/
def Resp.isOk {α : Type} : Resp α → Bool
  | .success _ _ _ => true
  | .error _ _ => false

/-- The order lifecycle statuses, from `OrderStatus` in src/types/order.types.ts. -/
inductive OrderStatus where
  | pending
  | preparing
  | done_preparing
  | on_way
  | delivered
  | cancelled
deriving DecidableEq, Repr, Fintype

/-- Payment statuses, from `PaymentStatus` in src/types/order.types.ts. -/
inductive PaymentStatus where
  | not_paid
  | paid
  | failed
  | refunded
deriving DecidableEq, Repr

/-- The `validTransitions` table of `OrderController.updateOrderStatus`
(src/controllers/order.controller.ts:572-579). -/
def validTransitions : OrderStatus → List OrderStatus
  | .pending => [.preparing, .cancelled]
  | .preparing => [.done_preparing, .cancelled]
  | .done_preparing => [.on_way, .cancelled]
  | .on_way => [.delivered, .cancelled]
  | .delivered => []
  | .cancelled => []

/-- A delivery address, from `OrderUpdateDto.delivery_address`
(src/types/order.types.ts). -/
structure DeliveryAddress where
  address : String
  latitude : ℚ
  longitude : ℚ
  details : Option String
deriving DecidableEq, Repr

/-- An orders row together with the store columns joined by the controllers
(`stores (country_id, city_id)`), restricted to the fields the embedded
operations read or write. -/
structure OrderRow where
  id : String
  user_id : String
  order_status : OrderStatus
  payment_status : PaymentStatus
  driver_id : Option String
  payment_option_id : Option String
  promo_code_id : Option String
  extra_note : Option String
  delivery_address : DeliveryAddress
  transaction_id : Option String
  store_country_id : String
  store_city_id : Option String
deriving DecidableEq, Repr

/-- The guard `req.admin?.country_id && store.country_id !== req.admin.country_id`
of the order mutations (e.g. src/controllers/order.controller.ts:563): the
check only fires when the principal carries a country claim. -/
def orderCountryMismatch (p : Principal) (o : OrderRow) : Bool :=
  match p.country_id with
  | some c => o.store_country_id != c
  | none => false

/-- The guard `req.admin?.city_id && store.city_id !== req.admin.city_id`
of the order mutations (e.g. src/controllers/order.controller.ts:566): the
check only fires when the principal carries a city claim; a store row with a
null city is a mismatch for any claimed city (JavaScript strict inequality). -/
def orderCityMismatch (p : Principal) (o : OrderRow) : Bool :=
  match p.city_id with
  | some y => o.store_city_id != some y
  | none => false

/-- The location access-control block shared by the order mutations
(src/controllers/order.controller.ts:562-569 and the identical blocks in
updateOrder/assignDriver/updatePaymentStatus/deleteOrder).  `true` means the
block falls through without erroring. -/
def orderAccessOk (p : Principal) (o : OrderRow) : Bool :=
  p.role == AdminRole.super_admin ||
    (!(orderCountryMismatch p o) && !(orderCityMismatch p o))

/-- Embeds `OrderController.updateOrderStatus` (src/controllers/order.controller.ts:539-624)
on an order row that was found: access checks, then the transition-table
check, then the write.  Returns the HTTP response and the stored row after
the call. -/
def updateOrderStatus (p : Principal) (o : OrderRow) (status : OrderStatus) :
    Resp OrderRow × OrderRow :=
  if p.role != AdminRole.super_admin && orderCountryMismatch p o then
    (Resp.error 403 "Cannot modify order from different country", o)
  else if p.role != AdminRole.super_admin && orderCityMismatch p o then
    (Resp.error 403 "Cannot modify order from different city", o)
  else if !(validTransitions o.order_status).contains status then
    (Resp.error 400 "Invalid status transition", o)
  else
    let o' := { o with order_status := status }
    (Resp.success 200 "Order status updated successfully" o', o')

/-- Embeds `OrderController.deleteOrder` (src/controllers/order.controller.ts:698-747)
on an order row that was found: access checks, the pending-only guard, then
the delete.  The second component is the stored row after the call
(`none` when the row was deleted). -/
def deleteOrder (p : Principal) (o : OrderRow) : Resp Unit × Option OrderRow :=
  if p.role != AdminRole.super_admin && orderCountryMismatch p o then
    (Resp.error 403 "Cannot delete order from different country", some o)
  else if p.role != AdminRole.super_admin && orderCityMismatch p o then
    (Resp.error 403 "Cannot delete order from different city", some o)
  else if o.order_status != OrderStatus.pending then
    (Resp.error 400 "Can only delete pending orders", some o)
  else
    (Resp.success 200 "Order deleted successfully" (), none)

/-- Promo code kinds, from the `promo_code_type` enum
(database-commands/05_create_promo_codes.sql) and `PromoCodeType`
(src/types/promo-code.types.ts). -/
inductive PromoCodeType where
  | percentage
  | fixed
deriving DecidableEq, Repr

/-- A `promo_codes` row as stored, columns per
database-commands/05_create_promo_codes.sql and the `PromoCode` interface in
src/types/promo-code.types.ts.  Money amounts are modelled as rationals and
timestamps as integers. -/
structure PromoCode where
  id : String
  country_id : String
  city_id : Option String
  code : String
  type : PromoCodeType
  discount_amount : ℚ
  minimum_order_amount : Option ℚ
  maximum_discount : Option ℚ
  usage_limit : Option Nat
  used_count : Nat
  description : Option String
  start_date : Option Int
  end_date : Option Int
  is_active : Bool
deriving DecidableEq, Repr

/-- A JavaScript value as seen by the controllers after a row is fetched:
numbers (NaN kept separate), strings, booleans, SQL NULL and the `undefined`
produced by accessing a property that does not exist on the object. -/
inductive JsValue where
  | num (q : ℚ)
  | nan
  | str (s : String)
  | bool (b : Bool)
  | null
  | undefined
deriving DecidableEq, Repr

/-- JavaScript ToNumber on the value forms that reach arithmetic in the
embedded code paths (`none` stands for NaN).  Numeric-string coercion is not
modelled because no string reaches an arithmetic operator in these paths. -/
def JsValue.toNum : JsValue → Option ℚ
  | .num q => some q
  | .nan => none
  | .undefined => none
  | .null => some 0
  | .bool b => some (if b then 1 else 0)
  | .str _ => none

/-- JavaScript truthiness of a value (`if (v)`). -/
def JsValue.truthy : JsValue → Bool
  | .num q => q != 0
  | .nan => false
  | .str s => s != ""
  | .bool b => b
  | .null => false
  | .undefined => false

/-- JavaScript subtraction: both operands go through ToNumber, NaN
propagates. -/
def jsSub (a b : JsValue) : JsValue :=
  match a.toNum, b.toNum with
  | some x, some y => .num (x - y)
  | _, _ => .nan

/-- JavaScript multiplication under the same conventions as `jsSub`. -/
def jsMul (a b : JsValue) : JsValue :=
  match a.toNum, b.toNum with
  | some x, some y => .num (x * y)
  | _, _ => .nan

/-- JavaScript division under the same conventions as `jsSub`; division by
zero does not arise in the embedded paths (the only divisor is the literal
100). -/
def jsDiv (a b : JsValue) : JsValue :=
  match a.toNum, b.toNum with
  | some x, some y => if y = 0 then .nan else .num (x / y)
  | _, _ => .nan

/-- Embeds `Math.min` on two values: NaN (or an operand coercing to NaN) wins. -/
def jsMin (a b : JsValue) : JsValue :=
  match a.toNum, b.toNum with
  | some x, some y => .num (min x y)
  | _, _ => .nan

/-- JavaScript property access on a fetched `promo_codes` row
(`select('*')` returns one property per column of
database-commands/05_create_promo_codes.sql; any other property name yields
`undefined`).  Properties not read by the embedded controllers (ids, dates,
text columns) are exposed only where a controller reads them. -/
def promoField (p : PromoCode) (key : String) : JsValue :=
  if key = "type" then
    .str (match p.type with | .percentage => "percentage" | .fixed => "fixed")
  else if key = "discount_amount" then .num p.discount_amount
  else if key = "minimum_order_amount" then
    (match p.minimum_order_amount with | some q => .num q | none => .null)
  else if key = "maximum_discount" then
    (match p.maximum_discount with | some q => .num q | none => .null)
  else if key = "code" then .str p.code
  else if key = "is_active" then .bool p.is_active
  else .undefined

/-- The discount computation of `OrderController.createOrder`
(src/controllers/order.controller.ts:281-298), with JavaScript semantics for
property access and arithmetic.  The source reads the properties
`discount_type`, `discount_value` and `max_discount` of the fetched
`promo_codes` row. -/
def createOrderDiscount (promoCode : PromoCode) (totalItemPrice : ℚ) : JsValue :=
  let d0 : JsValue :=
    if promoField promoCode "discount_type" = JsValue.str "percentage" then
      jsDiv (jsMul (.num totalItemPrice) (promoField promoCode "discount_value"))
        (.num 100)
    else
      promoField promoCode "discount_value"
  if (promoField promoCode "max_discount").truthy then
    jsMin d0 (promoField promoCode "max_discount")
  else
    d0

/-- Embeds `finalPrice = totalItemPrice - discountAmount`
(src/controllers/order.controller.ts:300); `discountAmount` is initialised
to 0 and only recomputed when a promo code was supplied. -/
def createOrderFinalPrice (promoCode : Option PromoCode) (totalItemPrice : ℚ) :
    JsValue :=
  let discountAmount : JsValue :=
    match promoCode with
    | none => .num 0
    | some p => createOrderDiscount p totalItemPrice
  jsSub (.num totalItemPrice) discountAmount

/-- The promo code of the spec scenario: `type=percentage`,
`discount_amount=20`, `maximum_discount=10`, active and unconstrained
otherwise. -/
def scenarioPromo : PromoCode :=
  { id := "promo-1"
  , country_id := "country-1"
  , city_id := none
  , code := "SAVE20"
  , type := .percentage
  , discount_amount := 20
  , minimum_order_amount := none
  , maximum_discount := some 10
  , usage_limit := none
  , used_count := 0
  , description := none
  , start_date := none
  , end_date := none
  , is_active := true }

/-- Case-insensitive substring test, modelling the `ILIKE '%s%'` filters the
controllers build with `query.ilike`/`query.or`. -/
def containsCI (hay pat : String) : Bool :=
  decide (List.IsInfix pat.toLower.toList hay.toLower.toList)

/-- The uniform paginated list envelope every list endpoint returns
(`{data, total, page, limit, totalPages}`). -/
structure ListResult (α : Type) where
  data : List α
  total : Nat
  page : Nat
  limit : Nat
  totalPages : Nat
deriving DecidableEq, Repr

/-- The shared pagination block `from = (page-1)*limit; to = from+limit-1;
query.range(from, to)` (e.g. src/controllers/category.controller.ts:68-71,
order.controller.ts:87-90): the window of at most `limit` rows of the
ordered matching rows, starting at zero-based offset `(page-1)*limit`. -/
def pageWindow {α : Type} (rows : List α) (page limit : Nat) : List α :=
  (rows.drop ((page - 1) * limit)).take limit

/-- Embeds `Math.ceil((count || 0) / limit)` on natural counts (e.g.
src/controllers/category.controller.ts:77). -/
def ceilPages (total limit : Nat) : Nat := (total + limit - 1) / limit

/-- A `categories` row, per the `Category` interface
(src/types/category.types.ts) and the categories table
(database-commands/12_create_ratings_table.sql). -/
structure CategoryRow where
  id : String
  country_id : String
  city_id : Option String
  name : String
  description : Option String
  media_id : Option String
  position : Nat
  is_active : Bool
deriving DecidableEq, Repr

/-- Query parameters of `CategoryController.getCategories`
(`CategoryQueryParams`, src/types/category.types.ts); `page` and `limit`
carry the destructuring defaults 1 and 10. -/
structure CategoryQuery where
  search : Option String := none
  country_id : Option String := none
  city_id : Option String := none
  is_active : Option Bool := none
  page : Nat := 1
  limit : Nat := 10
deriving DecidableEq, Repr

/-- The non-location filters of `CategoryController.getCategories`
(src/controllers/category.controller.ts:43-49): search over name and
description (an SQL ILIKE on a NULL column matches nothing), and the
boolean `is_active` filter applied only when literally present. -/
def categoryBaseFilter (q : CategoryQuery) (r : CategoryRow) : Bool :=
  (match q.search with
   | some s =>
       containsCI r.name s ||
         (match r.description with
          | some d => containsCI d s
          | none => false)
   | none => true) &&
  (match q.is_active with
   | some b => r.is_active == b
   | none => true)

/-- The location block of `CategoryController.getCategories`
(src/controllers/category.controller.ts:51-66): a non-super-admin with a
country claim sees rows of that country, and with a city claim only rows
whose city is null (country-wide) or equals the claim; a super-admin gets
the caller-supplied filters, the city one only together with the country
one. -/
def categoryLocFilter (p : Principal) (q : CategoryQuery) (r : CategoryRow) : Bool :=
  if p.role != AdminRole.super_admin then
    match p.country_id with
    | some c =>
        r.country_id == c &&
          (match p.city_id with
           | some y => r.city_id == none || r.city_id == some y
           | none => true)
    | none => true
  else
    match q.country_id with
    | some c =>
        r.country_id == c &&
          (match q.city_id with
           | some y => r.city_id == some y
           | none => true)
    | none => true

/-- The rows matching all filters of `getCategories`, in query order; its
length is the `count: 'exact'` total. -/
def categoriesMatching (p : Principal) (db : List CategoryRow) (q : CategoryQuery) :
    List CategoryRow :=
  db.filter (fun r => categoryBaseFilter q r && categoryLocFilter p q r)

/-- Embeds `CategoryController.getCategories`
(src/controllers/category.controller.ts:13-102): filters, location block,
pagination and the paginated envelope. -/
def getCategories (p : Principal) (db : List CategoryRow) (q : CategoryQuery) :
    ListResult CategoryRow :=
  let matching := categoriesMatching p db q
  { data := pageWindow matching q.page q.limit
  , total := matching.length
  , page := q.page
  , limit := q.limit
  , totalPages := ceilPages matching.length q.limit }

/-- An `orders` row as read by `getOrders`, together with the joined store
location columns; timestamps are integers. -/
structure OrderListRow where
  id : String
  extra_note : Option String
  user_id : String
  store_id : String
  driver_id : Option String
  payment_status : PaymentStatus
  order_status : OrderStatus
  created_at : Int
  store_country_id : String
  store_city_id : Option String
deriving DecidableEq, Repr

/-- Query parameters of `OrderController.getOrders` (`OrderQueryParams`,
src/types/order.types.ts) with the destructuring defaults. -/
structure OrderQuery where
  search : Option String := none
  user_id : Option String := none
  store_id : Option String := none
  driver_id : Option String := none
  payment_status : Option PaymentStatus := none
  order_status : Option OrderStatus := none
  start_date : Option Int := none
  end_date : Option Int := none
  page : Nat := 1
  limit : Nat := 10
deriving DecidableEq, Repr

/-- The non-location filters of `OrderController.getOrders`
(src/controllers/order.controller.ts:51-75). -/
def orderBaseFilter (q : OrderQuery) (r : OrderListRow) : Bool :=
  (match q.search with
   | some s =>
       containsCI r.id s ||
         (match r.extra_note with
          | some n => containsCI n s
          | none => false)
   | none => true) &&
  (match q.user_id with | some v => r.user_id == v | none => true) &&
  (match q.store_id with | some v => r.store_id == v | none => true) &&
  (match q.driver_id with | some v => r.driver_id == some v | none => true) &&
  (match q.payment_status with | some v => r.payment_status == v | none => true) &&
  (match q.order_status with | some v => r.order_status == v | none => true) &&
  (match q.start_date with | some d => d ≤ r.created_at | none => true) &&
  (match q.end_date with | some d => r.created_at ≤ d | none => true)

/-- The location block of `OrderController.getOrders`
(src/controllers/order.controller.ts:77-85) applies `eq` filters to the
columns `stores.country_id` / `stores.city_id` of the embedded resource
`stores ( name )`.  Without `!inner`, a PostgREST filter on an embedded
resource nulls the embed on non-matching rows but excludes no parent row,
so the block restricts no returned order row: it only decides whether the
embedded store object survives on each row.  `true` means the embed is
kept. -/
def orderStoreEmbedKept (p : Principal) (r : OrderListRow) : Bool :=
  if p.role != AdminRole.super_admin then
    match p.country_id with
    | some c =>
        r.store_country_id == c &&
          (match p.city_id with
           | some y => r.store_city_id == some y
           | none => true)
    | none => true
  else true

/-- The order rows matching the filters of `getOrders`, in query order:
only the non-location filters restrict rows, because the location block
targets the plain embedded `stores` resource and keeps every parent row
(see `orderStoreEmbedKept`). -/
def ordersMatching (p : Principal) (db : List OrderListRow) (q : OrderQuery) :
    List OrderListRow :=
  db.filter (fun r => orderBaseFilter q r)

/-- Embeds `OrderController.getOrders` (src/controllers/order.controller.ts:16-118). -/
def getOrders (p : Principal) (db : List OrderListRow) (q : OrderQuery) :
    ListResult OrderListRow :=
  let matching := ordersMatching p db q
  { data := pageWindow matching q.page q.limit
  , total := matching.length
  , page := q.page
  , limit := q.limit
  , totalPages := ceilPages matching.length q.limit }

/-- Rating moderation statuses (`RatingStatus`, src/types/rating.types.ts). -/
inductive RatingStatus where
  | pending
  | approved
  | rejected
  | reported
deriving DecidableEq, Repr

/-- Rating target kinds (`RatingTargetType`, src/types/rating.types.ts). -/
inductive RatingTargetType where
  | store
  | item
deriving DecidableEq, Repr

/-- A `ratings` row (database-commands/12_create_ratings_table.sql and the
`Rating` interface): `city_id` is nullable. -/
structure RatingRow where
  id : String
  country_id : String
  city_id : Option String
  user_id : String
  target_type : RatingTargetType
  target_id : String
  star_count : Nat
  description : Option String
  status : RatingStatus
  is_active : Bool
deriving DecidableEq, Repr

/-- Query parameters of `RatingController.getRatings` with the
destructuring defaults. -/
structure RatingQuery where
  search : Option String := none
  country_id : Option String := none
  city_id : Option String := none
  user_id : Option String := none
  target_type : Option RatingTargetType := none
  target_id : Option String := none
  status : Option RatingStatus := none
  star_count : Option Nat := none
  is_active : Option Bool := none
  page : Nat := 1
  limit : Nat := 10
deriving DecidableEq, Repr

/-- The non-location filters of `RatingController.getRatings`
(src/controllers/rating.controller.ts:54-63). -/
def ratingBaseFilter (q : RatingQuery) (r : RatingRow) : Bool :=
  (match q.search with
   | some s =>
       (match r.description with
        | some d => containsCI d s
        | none => false)
   | none => true) &&
  (match q.star_count with | some v => r.star_count == v | none => true) &&
  (match q.status with | some v => r.status == v | none => true) &&
  (match q.is_active with | some b => r.is_active == b | none => true) &&
  (match q.target_type with | some v => r.target_type == v | none => true) &&
  (match q.target_id with | some v => r.target_id == v | none => true) &&
  (match q.user_id with | some v => r.user_id == v | none => true)

/-- The location block of `RatingController.getRatings`
(src/controllers/rating.controller.ts:66-77): for a non-super-admin the
country and city claims are applied as two independent equality filters
(no null-city escape for ratings); a super-admin gets the caller filters,
also independently. -/
def ratingLocFilter (p : Principal) (q : RatingQuery) (r : RatingRow) : Bool :=
  if p.role != AdminRole.super_admin then
    (match p.country_id with | some c => r.country_id == c | none => true) &&
    (match p.city_id with | some y => r.city_id == some y | none => true)
  else
    (match q.country_id with | some c => r.country_id == c | none => true) &&
    (match q.city_id with | some y => r.city_id == some y | none => true)

/-- The rows matching all filters of `getRatings`, in query order. -/
def ratingsMatching (p : Principal) (db : List RatingRow) (q : RatingQuery) :
    List RatingRow :=
  db.filter (fun r => ratingBaseFilter q r && ratingLocFilter p q r)

/-- Embeds `RatingController.getRatings` (src/controllers/rating.controller.ts:18-141),
without the side statistics computation, which does not affect the row
window. -/
def getRatings (p : Principal) (db : List RatingRow) (q : RatingQuery) :
    ListResult RatingRow :=
  let matching := ratingsMatching p db q
  { data := pageWindow matching q.page q.limit
  , total := matching.length
  , page := q.page
  , limit := q.limit
  , totalPages := ceilPages matching.length q.limit }

/-- Query parameters of `PromoCodeController.getPromoCodes`
(`PromoCodeQueryParams`, src/types/promo-code.types.ts) with the
destructuring defaults. -/
structure PromoQuery where
  search : Option String := none
  country_id : Option String := none
  city_id : Option String := none
  type : Option PromoCodeType := none
  is_active : Option Bool := none
  is_expired : Option Bool := none
  page : Nat := 1
  limit : Nat := 10
deriving DecidableEq, Repr

/-- The non-location filters of `PromoCodeController.getPromoCodes`
(src/controllers in city.controller.ts, promo section lines 567-581):
search, type, the boolean `is_active`, and the expiry filter against the
current time `now` (an SQL comparison with a NULL `end_date` matches
nothing, while the `is_expired=false` branch explicitly allows a null
`end_date`). -/
def promoBaseFilter (q : PromoQuery) (now : Int) (r : PromoCode) : Bool :=
  (match q.search with
   | some s =>
       containsCI r.code s ||
         (match r.description with
          | some d => containsCI d s
          | none => false)
   | none => true) &&
  (match q.type with | some v => r.type == v | none => true) &&
  (match q.is_active with | some b => r.is_active == b | none => true) &&
  (match q.is_expired with
   | some true => (match r.end_date with | some e => e < now | none => false)
   | some false => (match r.end_date with | some e => now < e | none => true)
   | none => true)

/-- The location block of `getPromoCodes` (promo section lines 583-598):
same country-wide shape as categories (null-city rows are visible inside
the country), and the verbatim caller filters for a super-admin, the city
one only together with the country one. -/
def promoLocFilter (p : Principal) (q : PromoQuery) (r : PromoCode) : Bool :=
  if p.role != AdminRole.super_admin then
    match p.country_id with
    | some c =>
        r.country_id == c &&
          (match p.city_id with
           | some y => r.city_id == none || r.city_id == some y
           | none => true)
    | none => true
  else
    match q.country_id with
    | some c =>
        r.country_id == c &&
          (match q.city_id with
           | some y => r.city_id == some y
           | none => true)
    | none => true

/-- The rows matching all filters of `getPromoCodes`, in query order. -/
def promosMatching (p : Principal) (db : List PromoCode) (q : PromoQuery)
    (now : Int) : List PromoCode :=
  db.filter (fun r => promoBaseFilter q now r && promoLocFilter p q r)

/-- Embeds `PromoCodeController.getPromoCodes` (promo section lines 540-633). -/
def getPromoCodes (p : Principal) (db : List PromoCode) (q : PromoQuery)
    (now : Int) : ListResult PromoCode :=
  let matching := promosMatching p db q now
  { data := pageWindow matching q.page q.limit
  , total := matching.length
  , page := q.page
  , limit := q.limit
  , totalPages := ceilPages matching.length q.limit }

/-- A `payment_options` row as read by the order controllers (only the id
and active flag are consulted). -/
structure PaymentOptionRow where
  id : String
  is_active : Bool
deriving DecidableEq, Repr

/-- A `media` row as read by the mutation validators: id, purpose tag and
location. -/
structure MediaRow where
  id : String
  purpose : String
  country_id : Option String
  city_id : Option String
deriving DecidableEq, Repr

/-- Embeds `OrderUpdateDto` (src/types/order.types.ts): all fields optional; an
absent field leaves the column untouched by `supabase.update(data)`. -/
structure OrderUpdateDto where
  payment_option_id : Option String := none
  extra_note : Option String := none
  delivery_address : Option DeliveryAddress := none
  driver_id : Option String := none
  order_status : Option OrderStatus := none
  payment_status : Option PaymentStatus := none
  transaction_id : Option String := none
deriving DecidableEq, Repr

/-- Effect of `supabase.from('orders').update(data)` on the fetched row:
every property present on the DTO overwrites the column. -/
def applyOrderUpdate (o : OrderRow) (d : OrderUpdateDto) : OrderRow :=
  { o with
    payment_option_id :=
      match d.payment_option_id with | some v => some v | none => o.payment_option_id
  , extra_note :=
      match d.extra_note with | some v => some v | none => o.extra_note
  , delivery_address :=
      match d.delivery_address with | some a => a | none => o.delivery_address
  , driver_id :=
      match d.driver_id with | some v => some v | none => o.driver_id
  , order_status :=
      match d.order_status with | some s => s | none => o.order_status
  , payment_status :=
      match d.payment_status with | some s => s | none => o.payment_status
  , transaction_id :=
      match d.transaction_id with | some v => some v | none => o.transaction_id }

/-- Embeds `OrderController.updateOrder` (src/controllers/order.controller.ts:380-464)
on an order row that was found: access checks, payment-option validation,
then the write.  Returns the HTTP response and the stored row after the
call. -/
def updateOrder (p : Principal) (paymentOptions : List PaymentOptionRow)
    (o : OrderRow) (d : OrderUpdateDto) : Resp OrderRow × OrderRow :=
  if p.role != AdminRole.super_admin && orderCountryMismatch p o then
    (Resp.error 403 "Cannot modify order from different country", o)
  else if p.role != AdminRole.super_admin && orderCityMismatch p o then
    (Resp.error 403 "Cannot modify order from different city", o)
  else
    match d.payment_option_id with
    | some pid =>
        if paymentOptions.any (fun po => po.id == pid && po.is_active) then
          let o' := applyOrderUpdate o d
          (Resp.success 200 "Order updated successfully" o', o')
        else
          (Resp.error 400 "Invalid payment option ID", o)
    | none =>
        let o' := applyOrderUpdate o d
        (Resp.success 200 "Order updated successfully" o', o')

/-- Embeds `CategoryUpdateDto` (src/types/category.types.ts): `media_id` may be a
string, `null` (remove media) or absent, hence the doubled option. -/
structure CategoryUpdateDto where
  name : Option String := none
  description : Option String := none
  media_id : Option (Option String) := none
  position : Option Nat := none
  is_active : Option Bool := none
deriving DecidableEq, Repr

/-- Effect of `supabase.from('categories').update(data)` on the fetched
row. -/
def applyCategoryUpdate (c : CategoryRow) (d : CategoryUpdateDto) : CategoryRow :=
  { c with
    name := match d.name with | some v => v | none => c.name
  , description :=
      match d.description with | some v => some v | none => c.description
  , media_id := match d.media_id with | some v => v | none => c.media_id
  , position := match d.position with | some v => v | none => c.position
  , is_active := match d.is_active with | some v => v | none => c.is_active }

/-- Embeds `CategoryController.updateCategory`
(src/controllers/category.controller.ts:194-281) on a category row that was
found: access checks, media validation, then the write.  The store-level
unique-name fallback (error code 23505) concerns sibling rows that are not
part of this state and is not modelled. -/
def updateCategory (p : Principal) (mediaDb : List MediaRow)
    (c : CategoryRow) (d : CategoryUpdateDto) : Resp CategoryRow × CategoryRow :=
  if p.role != AdminRole.super_admin && p.country_id != some c.country_id then
    (Resp.error 403 "Cannot modify category from different country", c)
  else if p.role != AdminRole.super_admin &&
      (match c.city_id with
       | some z => p.city_id != some z
       | none => false) then
    (Resp.error 403 "Cannot modify category from different city", c)
  else
    match d.media_id with
    | some (some m) =>
        (match mediaDb.find? (fun md => md.id == m && md.purpose == "category_image") with
         | none => (Resp.error 400 "Invalid media ID", c)
         | some md =>
             if md.country_id != some c.country_id ||
                 (match c.city_id with
                  | some z => md.city_id != some z
                  | none => false) then
               (Resp.error 400 "Media location does not match category location", c)
             else
               let c' := applyCategoryUpdate c d
               (Resp.success 200 "Category updated successfully" c', c'))
    | _ =>
        let c' := applyCategoryUpdate c d
        (Resp.success 200 "Category updated successfully" c', c')

/-- Embeds `CategoryController.deleteCategory`
(src/controllers/category.controller.ts:283-330) on a category row that was
found; `storeCount` is the exact count of `store_categories` rows
referencing the category.  The second component is the stored category row
after the call. -/
def deleteCategory (p : Principal) (c : CategoryRow) (storeCount : Nat) :
    Resp Unit × Option CategoryRow :=
  if p.role != AdminRole.super_admin && p.country_id != some c.country_id then
    (Resp.error 403 "Cannot delete category from different country", some c)
  else if p.role != AdminRole.super_admin &&
      (match c.city_id with
       | some z => p.city_id != some z
       | none => false) then
    (Resp.error 403 "Cannot delete category from different city", some c)
  else if storeCount > 0 then
    (Resp.error 400 "Cannot delete category that is in use by stores", some c)
  else
    (Resp.success 200 "Category deleted successfully" (), none)

/-- An `admins` row (src/types/admin.types.ts, `Admin`). -/
structure AdminRow where
  id : String
  username : String
  password : String
  email : Option String
  role : AdminRole
  country_id : Option String
  city_id : Option String
  full_name : Option String
  phone_number : Option String
  photo_media_id : Option String
  is_active : Bool
deriving DecidableEq, Repr

/-- Embeds `AdminUpdateDto` (src/types/admin.types.ts). -/
structure AdminUpdateDto where
  username : Option String := none
  password : Option String := none
  email : Option String := none
  role : Option AdminRole := none
  country_id : Option String := none
  city_id : Option String := none
  full_name : Option String := none
  phone_number : Option String := none
  photo_media_id : Option String := none
  is_active : Option Bool := none
deriving DecidableEq, Repr

/-- Effect of `supabase.from('admins').update(updateData)` on the fetched
row (the password arrives already hashed). -/
def applyAdminUpdate (a : AdminRow) (d : AdminUpdateDto) : AdminRow :=
  { a with
    username := match d.username with | some v => v | none => a.username
  , password := match d.password with | some v => v | none => a.password
  , email := match d.email with | some v => some v | none => a.email
  , role := match d.role with | some v => v | none => a.role
  , country_id := match d.country_id with | some v => some v | none => a.country_id
  , city_id := match d.city_id with | some v => some v | none => a.city_id
  , full_name := match d.full_name with | some v => some v | none => a.full_name
  , phone_number :=
      match d.phone_number with | some v => some v | none => a.phone_number
  , photo_media_id :=
      match d.photo_media_id with | some v => some v | none => a.photo_media_id
  , is_active := match d.is_active with | some v => v | none => a.is_active }

/-- Embeds `AdminController.updateAdmin` (unnamed admin controller source,
lines 317-438) on an admin row that was found.  `admins` is the admins
table (for the username-uniqueness pre-check), `hash` the external bcrypt
collaborator.  Returns the HTTP response and the stored target row after
the call. -/
def updateAdmin (p : Principal) (admins : List AdminRow) (mediaDb : List MediaRow)
    (hash : String → String) (a : AdminRow) (d : AdminUpdateDto) :
    Resp AdminRow × AdminRow :=
  if p.role != AdminRole.super_admin && a.role == AdminRole.super_admin then
    (Resp.error 403 "Cannot modify super admin", a)
  else if p.role != AdminRole.super_admin && a.country_id != p.country_id then
    (Resp.error 403 "Cannot modify admin from different country", a)
  else if p.role != AdminRole.super_admin &&
      (match p.city_id with
       | some y => a.city_id != some y
       | none => false) then
    (Resp.error 403 "Cannot modify admin from different city", a)
  else if p.role != AdminRole.super_admin &&
      (d.country_id.isSome || d.role == some AdminRole.super_admin) then
    (Resp.error 403 "Invalid update parameters", a)
  else if (match d.username with
           | some u => admins.any (fun x => x.username == u && x.id != a.id)
           | none => false) then
    (Resp.error 409 "Username already exists", a)
  else
    match d.photo_media_id with
    | some m =>
        (match mediaDb.find? (fun md => md.id == m && md.purpose == "profile_photo") with
         | none => (Resp.error 400 "Invalid photo media ID", a)
         | some md =>
             if md.country_id != a.country_id then
               (Resp.error 400 "Photo media must belong to the same country", a)
             else
               let d' := { d with password := d.password.map hash }
               let a' := applyAdminUpdate a d'
               (Resp.success 200 "Admin updated successfully" a', a'))
    | none =>
        let d' := { d with password := d.password.map hash }
        let a' := applyAdminUpdate a d'
        (Resp.success 200 "Admin updated successfully" a', a')

/-- Embeds `AdminController.deleteAdmin` (unnamed admin controller source,
lines 440-488) on an admin row that was found: the role/location
access-control block, then the self-deletion guard, then the delete.  The
second component is the stored target row after the call (`none` when
deleted). -/
def deleteAdmin (p : Principal) (a : AdminRow) : Resp Unit × Option AdminRow :=
  if p.role != AdminRole.super_admin && a.role == AdminRole.super_admin then
    (Resp.error 403 "Cannot delete super admin", some a)
  else if p.role != AdminRole.super_admin && a.country_id != p.country_id then
    (Resp.error 403 "Cannot delete admin from different country", some a)
  else if p.role != AdminRole.super_admin &&
      (match p.city_id with
       | some y => a.city_id != some y
       | none => false) then
    (Resp.error 403 "Cannot delete admin from different city", some a)
  else if a.id == p.id then
    (Resp.error 400 "Cannot delete your own account", some a)
  else
    (Resp.success 200 "Admin deleted successfully" (), none)

/-- A `countries` row, restricted to the columns the embedded country
operations read or write. -/
structure CountryRow where
  id : String
  name : String
  code : String
  is_active : Bool
deriving DecidableEq, Repr

/-- Embeds `CountryCreateDto` restricted to the columns of `CountryRow`. -/
structure CountryCreateDto where
  name : String
  code : String
deriving DecidableEq, Repr

/-- Embeds `CountryUpdateDto` restricted to the columns of `CountryRow`. -/
structure CountryUpdateDto where
  name : Option String := none
  code : Option String := none
  is_active : Option Bool := none
deriving DecidableEq, Repr

/-- Embeds `CountryController.createCountry`
(src/controllers/country.controller.ts:73-109): the super-admin gate comes
first, before any read or write; then the code-uniqueness pre-check; then
the insert (with `is_active: true`), the fresh row id coming from the
store.  Returns the HTTP response and the countries table after the call. -/
def createCountry (p : Principal) (countries : List CountryRow)
    (dto : CountryCreateDto) (newId : String) :
    Resp CountryRow × List CountryRow :=
  if p.role != AdminRole.super_admin then
    (Resp.error 403 "Only super admin can create countries", countries)
  else if countries.any (fun r => r.code == dto.code) then
    (Resp.error 409 "Country code already exists", countries)
  else
    let row : CountryRow :=
      { id := newId, name := dto.name, code := dto.code, is_active := true }
    (Resp.success 201 "Country created successfully" row, countries ++ [row])

/-- Effect of `supabase.from('countries').update(updateData)` on a row. -/
def applyCountryUpdate (r : CountryRow) (d : CountryUpdateDto) : CountryRow :=
  { r with
    name := match d.name with | some v => v | none => r.name
  , code := match d.code with | some v => v | none => r.code
  , is_active := match d.is_active with | some v => v | none => r.is_active }

/-- Embeds `CountryController.updateCountry`
(src/controllers/country.controller.ts:111-146): the super-admin gate comes
first; then the existence check; then the write.  Returns the HTTP response
and the countries table after the call. -/
def updateCountry (p : Principal) (countries : List CountryRow) (id : String)
    (dto : CountryUpdateDto) : Resp CountryRow × List CountryRow :=
  if p.role != AdminRole.super_admin then
    (Resp.error 403 "Only super admin can update countries", countries)
  else
    match countries.find? (fun r => r.id == id) with
    | none => (Resp.error 404 "Country not found", countries)
    | some r =>
        let r' := applyCountryUpdate r dto
        (Resp.success 200 "Country updated successfully" r',
          countries.map (fun x => if x.id == id then applyCountryUpdate x dto else x))

/-- Embeds `CountryController.deleteCountry`
(src/controllers/country.controller.ts:148-199): the super-admin gate comes
first; then existence; then the dependency counts (joined
cities/admins/users counts); then the delete.  Returns the HTTP response
and the countries table after the call. -/
def deleteCountry (p : Principal) (countries : List CountryRow) (id : String)
    (cityCount adminCount userCount : Nat) : Resp Unit × List CountryRow :=
  if p.role != AdminRole.super_admin then
    (Resp.error 403 "Only super admin can delete countries", countries)
  else
    match countries.find? (fun r => r.id == id) with
    | none => (Resp.error 404 "Country not found", countries)
    | some _ =>
        if cityCount > 0 || adminCount > 0 || userCount > 0 then
          (Resp.error 400
            "Cannot delete country with existing cities, admins, or users. Deactivate it instead.",
            countries)
        else
          (Resp.success 200 "Country deleted successfully" (),
            countries.filter (fun r => r.id != id))

/-- Modelled from the spec (for comparison with the source table
`validTransitions`): the forward-transition graph as enumerated by the
specification, `pending to preparing or cancelled, preparing to
done_preparing or cancelled, done_preparing to on_way or cancelled, on_way
to delivered or cancelled, delivered and cancelled terminal`. -/
def specOrderEdge (cur nxt : OrderStatus) : Bool :=
  decide ((cur, nxt) ∈ ([
    (OrderStatus.pending, OrderStatus.preparing),
    (OrderStatus.pending, OrderStatus.cancelled),
    (OrderStatus.preparing, OrderStatus.done_preparing),
    (OrderStatus.preparing, OrderStatus.cancelled),
    (OrderStatus.done_preparing, OrderStatus.on_way),
    (OrderStatus.done_preparing, OrderStatus.cancelled),
    (OrderStatus.on_way, OrderStatus.delivered),
    (OrderStatus.on_way, OrderStatus.cancelled)] :
      List (OrderStatus × OrderStatus)))

/-- Sample super-admin principal for the claim C2 witness. -/
def c2SampleP : Principal :=
  { id := "root", role := AdminRole.super_admin, country_id := none, city_id := none }

/-- Sample delivered order for the claim C2 witness. -/
def c2SampleO : OrderRow :=
  { id := "o1", user_id := "u1", order_status := OrderStatus.delivered
  , payment_status := PaymentStatus.paid, driver_id := none
  , payment_option_id := none, promo_code_id := none, extra_note := none
  , delivery_address := { address := "a", latitude := 0, longitude := 0, details := none }
  , transaction_id := none, store_country_id := "c1", store_city_id := none }

/-- Sample country-scoped admin principal for the claim C10 witness. -/
def c10SampleP : Principal :=
  { id := "a7", role := AdminRole.admin, country_id := some "c1", city_id := none }

/-- Sample preparing-stage order for the claim C10 witness. -/
def c10SampleO : OrderRow :=
  { id := "o2", user_id := "u2", order_status := OrderStatus.preparing
  , payment_status := PaymentStatus.paid, driver_id := none
  , payment_option_id := none, promo_code_id := none, extra_note := none
  , delivery_address := { address := "b", latitude := 0, longitude := 0, details := none }
  , transaction_id := none, store_country_id := "c1", store_city_id := none }

/-- Sample category rows for the claim C3 witness. -/
def c3CatDb : List CategoryRow :=
  [ { id := "k1", country_id := "C", city_id := none, name := "Pizza"
    , description := none, media_id := none, position := 1, is_active := true }
  , { id := "k2", country_id := "C", city_id := some "Y", name := "Burgers"
    , description := none, media_id := none, position := 2, is_active := true }
  , { id := "k3", country_id := "D", city_id := none, name := "Sushi"
    , description := none, media_id := none, position := 3, is_active := true } ]

/-- Sample order rows for the claim C3 witness. -/
def c3OrdDb : List OrderListRow :=
  [ { id := "o1", extra_note := none, user_id := "u1", store_id := "s1"
    , driver_id := none, payment_status := PaymentStatus.paid
    , order_status := OrderStatus.pending, created_at := 5
    , store_country_id := "C", store_city_id := some "Y" } ]

/-- Sample super-admin principal for the claim C3 witness. -/
def c3SampleP : Principal :=
  { id := "root", role := AdminRole.super_admin, country_id := none, city_id := none }

/-- Sample city-scoped principal for the claim C4 witness. -/
def c4SampleP : Principal :=
  { id := "a4", role := AdminRole.operator, country_id := some "C", city_id := some "Y" }

/-- Sample rating rows for the claim C4 witness. -/
def c4RatDb : List RatingRow :=
  [ { id := "r1", country_id := "C", city_id := some "Y", user_id := "u1"
    , target_type := RatingTargetType.store, target_id := "s1", star_count := 5
    , description := none, status := RatingStatus.approved, is_active := true }
  , { id := "r2", country_id := "D", city_id := none, user_id := "u2"
    , target_type := RatingTargetType.item, target_id := "i1", star_count := 3
    , description := none, status := RatingStatus.pending, is_active := true } ]

/-- An order of a store in country D, for the claim C4 counterexample:
returned unrestricted to the country-C, city-Y principal `c4SampleP`. -/
def c4ForeignOrder : OrderListRow :=
  { id := "o4", extra_note := none, user_id := "u4", store_id := "s4"
  , driver_id := none, payment_status := PaymentStatus.paid
  , order_status := OrderStatus.pending, created_at := 9
  , store_country_id := "D", store_city_id := none }

/-- Sample super-admin principal for the claim C5 witness (with stale
location claims, which a super-admin query must ignore). -/
def c5SampleP : Principal :=
  { id := "root2", role := AdminRole.super_admin
  , country_id := some "C", city_id := some "Y" }

/-- Sample promo rows for the claim C5 witness. -/
def c5PromoDb : List PromoCode :=
  [ { id := "promo-2", country_id := "D", city_id := none, code := "TEN"
    , type := PromoCodeType.fixed, discount_amount := 10
    , minimum_order_amount := none, maximum_discount := none
    , usage_limit := none, used_count := 0, description := none
    , start_date := none, end_date := none, is_active := true } ]

/-- The role/location access-control block shared by the category mutations
(src/controllers/category.controller.ts:211-218, 299-306, 353-360).
`true` means the block falls through without erroring. -/
def categoryAccessOk (p : Principal) (c : CategoryRow) : Bool :=
  p.role == AdminRole.super_admin ||
    (p.country_id == some c.country_id &&
      (match c.city_id with
       | some z => p.city_id == some z
       | none => true))

/-- Sample country-scoped admin principal for the claim C6 witness. -/
def c6SampleP : Principal :=
  { id := "a6", role := AdminRole.admin, country_id := some "C", city_id := none }

/-- Sample order of a store in a different country for the claim C6
witness. -/
def c6SampleO : OrderRow :=
  { id := "o6", user_id := "u6", order_status := OrderStatus.pending
  , payment_status := PaymentStatus.paid, driver_id := none
  , payment_option_id := none, promo_code_id := none, extra_note := none
  , delivery_address := { address := "d", latitude := 0, longitude := 0, details := none }
  , transaction_id := none, store_country_id := "D", store_city_id := none }

/-- Sample category of a different country for the claim C6 witness. -/
def c6SampleCat : CategoryRow :=
  { id := "k6", country_id := "D", city_id := none, name := "Tacos"
  , description := none, media_id := none, position := 1, is_active := true }

/-- Sample admin row of a different country for the claim C6 witness. -/
def c6SampleA : AdminRow :=
  { id := "b6", username := "other", password := "h", email := none
  , role := AdminRole.operator, country_id := some "D", city_id := none
  , full_name := none, phone_number := none, photo_media_id := none
  , is_active := true }

/-- Sample country-scoped admin principal for the claim C7 witness. -/
def c7SampleP : Principal :=
  { id := "a7x", role := AdminRole.finance, country_id := some "C", city_id := none }

/-- Sample super-admin row for the claim C7 witness. -/
def c7SampleA : AdminRow :=
  { id := "b7", username := "chief", password := "h", email := none
  , role := AdminRole.super_admin, country_id := none, city_id := none
  , full_name := none, phone_number := none, photo_media_id := none
  , is_active := true }

/-- Sample countries table for the claim C7 witness. -/
def c7Countries : List CountryRow :=
  [ { id := "C", name := "Clandia", code := "CL", is_active := true } ]

/-- Sample self principal for the claim C8 counterexample and witness. -/
def c8SampleP : Principal :=
  { id := "self", role := AdminRole.super_admin, country_id := none, city_id := none }

/-- The stored admin row of `c8SampleP` itself. -/
def c8SampleA : AdminRow :=
  { id := "self", username := "boss", password := "h", email := none
  , role := AdminRole.super_admin, country_id := none, city_id := none
  , full_name := none, phone_number := none, photo_media_id := none
  , is_active := true }

/-- Sample super-admin principal for the claim C9 counterexample and
witness. -/
def c9SampleP : Principal :=
  { id := "root9", role := AdminRole.super_admin, country_id := none, city_id := none }

/-- Sample in-use category for the claim C9 counterexample and witness. -/
def c9SampleCat : CategoryRow :=
  { id := "k9", country_id := "C", city_id := none, name := "Grill"
  , description := none, media_id := none, position := 4, is_active := true }

/-! ## Shared lemmas -/

/-- The page window never exceeds the limit. -/
theorem pageWindow_length_le {α : Type} (rows : List α) (page limit : Nat) :
    (pageWindow rows page limit).length ≤ limit := by
  simp [pageWindow, List.length_take]

/-- Each window slot holds the matching row at the zero-based offset
`(page-1)*limit` plus the slot index. -/
theorem pageWindow_getElem? {α : Type} (rows : List α) (page limit i : Nat)
    (h : i < limit) :
    (pageWindow rows page limit)[i]? = rows[(page - 1) * limit + i]? := by
  unfold pageWindow
  rw [List.getElem?_take, if_pos h, List.getElem?_drop]

/-- The total is at most `limit` times the reported page count. -/
theorem le_mul_ceilPages (total limit : Nat) (h : 1 ≤ limit) :
    total ≤ limit * ceilPages total limit := by
  unfold ceilPages
  have hd := Nat.div_add_mod (total + limit - 1) limit
  have hm : (total + limit - 1) % limit < limit := Nat.mod_lt _ (by omega)
  generalize hE : limit * ((total + limit - 1) / limit) = m at hd ⊢
  omega

/-- The product of `limit` and the reported page count undershoots
`total + limit`. -/
theorem mul_ceilPages_lt (total limit : Nat) (h : 1 ≤ limit) :
    limit * ceilPages total limit < total + limit := by
  unfold ceilPages
  have hd := Nat.div_add_mod (total + limit - 1) limit
  have hm : (total + limit - 1) % limit < limit := Nat.mod_lt _ (by omega)
  generalize hE : limit * ((total + limit - 1) / limit) = m at hd ⊢
  omega

/-- The integer page count of the shared pagination block is the rational
ceiling of `total / limit`. -/
theorem ceilPages_eq_ceil (total limit : Nat) (h : 1 ≤ limit) :
    (ceilPages total limit : ℤ) = ⌈(total : ℚ) / (limit : ℚ)⌉ := by
  have hl : (0:ℚ) < (limit:ℚ) := by exact_mod_cast h
  have h1 := le_mul_ceilPages total limit h
  have h2 := mul_ceilPages_lt total limit h
  symm
  rw [Int.ceil_eq_iff]
  constructor
  · rw [lt_div_iff₀ hl]
    have h2' : (limit:ℚ) * (ceilPages total limit : ℚ) < (total:ℚ) + (limit:ℚ) := by
      exact_mod_cast h2
    push_cast
    nlinarith
  · rw [div_le_iff₀ hl]
    have h1' : (total:ℚ) ≤ (limit:ℚ) * (ceilPages total limit : ℚ) := by
      exact_mod_cast h1
    push_cast
    nlinarith

/-- A page past the reported page count yields an empty window. -/
theorem pageWindow_eq_nil {α : Type} (rows : List α) (page limit : Nat)
    (hl : 1 ≤ limit) (hp : ceilPages rows.length limit < page) :
    pageWindow rows page limit = [] := by
  unfold pageWindow
  have hlen : rows.length ≤ (page - 1) * limit := by
    calc rows.length ≤ limit * ceilPages rows.length limit :=
          le_mul_ceilPages _ _ hl
      _ ≤ limit * (page - 1) := Nat.mul_le_mul_left _ (by omega)
      _ = (page - 1) * limit := Nat.mul_comm _ _
  rw [List.drop_eq_nil_of_le hlen, List.take_nil]

/-- The four pagination facts for one matching-rows list. -/
theorem paginationBundle {α : Type} (rows : List α) (page limit : Nat)
    (hl : 1 ≤ limit) :
    (pageWindow rows page limit).length ≤ limit ∧
    (∀ i, i < limit →
        (pageWindow rows page limit)[i]? = rows[(page - 1) * limit + i]?) ∧
    ((ceilPages rows.length limit : ℤ) = ⌈(rows.length : ℚ) / (limit : ℚ)⌉) ∧
    (ceilPages rows.length limit < page → pageWindow rows page limit = []) :=
  ⟨pageWindow_length_le rows page limit,
   fun i hi => pageWindow_getElem? rows page limit i hi,
   ceilPages_eq_ceil rows.length limit hl,
   fun hp => pageWindow_eq_nil rows page limit hl hp⟩

/-- Window membership implies membership in the matching rows. -/
theorem mem_of_mem_pageWindow {α : Type} {rows : List α} {page limit : Nat}
    {a : α} (h : a ∈ pageWindow rows page limit) : a ∈ rows :=
  List.mem_of_mem_drop (List.mem_of_mem_take h)

/-- When the order access-control block falls through, both of its error
guards are false. -/
theorem order_guards_false (p : Principal) (o : OrderRow)
    (hacc : orderAccessOk p o = true) :
    (p.role != AdminRole.super_admin && orderCountryMismatch p o) = false ∧
    (p.role != AdminRole.super_admin && orderCityMismatch p o) = false := by
  unfold orderAccessOk at hacc
  rw [Bool.or_eq_true] at hacc
  rcases hacc with h | h
  · constructor <;> simp [bne, h]
  · rw [Bool.and_eq_true, Bool.not_eq_true', Bool.not_eq_true'] at h
    exact ⟨by simp [h.1], by simp [h.2]⟩

/-- When the category access-control block falls through, both of its error
guards are false. -/
theorem category_guards_false (p : Principal) (c : CategoryRow)
    (hacc : categoryAccessOk p c = true) :
    (p.role != AdminRole.super_admin && (p.country_id != some c.country_id)) = false ∧
    (p.role != AdminRole.super_admin &&
      (match c.city_id with
       | some z => p.city_id != some z
       | none => false)) = false := by
  unfold categoryAccessOk at hacc
  rw [Bool.or_eq_true] at hacc
  rcases hacc with h | h
  · constructor <;> simp [bne, h]
  · rw [Bool.and_eq_true] at h
    have h1 : (p.country_id != some c.country_id) = false := by
      simp [bne, h.1]
    have h2 : (match c.city_id with
        | some z => p.city_id != some z
        | none => false) = false := by
      cases hcz : c.city_id with
      | none => rfl
      | some z =>
          have hz := h.2
          rw [hcz] at hz
          simp at hz
          simp [bne, hz]
    exact ⟨by simp [h1], by simp [h2]⟩

/-! ## Claim theorems -/

/-- C2: for an authorized caller, `updateOrderStatus` sets the order status
to the requested value exactly when the pair (current, requested) is an
edge of the fixed forward-transition graph of the specification (the source
table `validTransitions` coincides with that graph), and for any other pair
it fails with the 400 validation error `Invalid status transition` and the
order row is unchanged. -/
theorem updateOrderStatus_matches_transition_graph
    (p : Principal) (o : OrderRow) (s : OrderStatus)
    (hacc : orderAccessOk p o = true) :
    (∀ cur nxt : OrderStatus,
        nxt ∈ validTransitions cur ↔ specOrderEdge cur nxt = true) ∧
    (specOrderEdge o.order_status s = true →
        updateOrderStatus p o s =
          (Resp.success 200 "Order status updated successfully"
            { o with order_status := s }, { o with order_status := s })) ∧
    (specOrderEdge o.order_status s = false →
        updateOrderStatus p o s = (Resp.error 400 "Invalid status transition", o)) := by
  obtain ⟨h1, h2⟩ := order_guards_false p o hacc
  refine ⟨by decide, ?_, ?_⟩
  · intro hs
    have hmem : s ∈ validTransitions o.order_status := by
      have hall : ∀ cur nxt : OrderStatus,
          specOrderEdge cur nxt = true → nxt ∈ validTransitions cur := by decide
      exact hall _ _ hs
    simp [updateOrderStatus, h1, h2, hmem]
  · intro hs
    have hmem : s ∉ validTransitions o.order_status := by
      have hall : ∀ cur nxt : OrderStatus,
          specOrderEdge cur nxt = false → nxt ∉ validTransitions cur := by decide
      exact hall _ _ hs
    simp [updateOrderStatus, h1, h2, hmem]

/-- Witness for C2: a super-admin requesting the transition delivered to
preparing, which is not an edge of the graph. -/
theorem updateOrderStatus_matches_transition_graph_witness :
    orderAccessOk c2SampleP c2SampleO = true ∧
    ((∀ cur nxt : OrderStatus,
        nxt ∈ validTransitions cur ↔ specOrderEdge cur nxt = true) ∧
     (specOrderEdge c2SampleO.order_status OrderStatus.preparing = true →
        updateOrderStatus c2SampleP c2SampleO OrderStatus.preparing =
          (Resp.success 200 "Order status updated successfully"
            { c2SampleO with order_status := OrderStatus.preparing },
            { c2SampleO with order_status := OrderStatus.preparing })) ∧
     (specOrderEdge c2SampleO.order_status OrderStatus.preparing = false →
        updateOrderStatus c2SampleP c2SampleO OrderStatus.preparing =
          (Resp.error 400 "Invalid status transition", c2SampleO))) :=
  ⟨by decide,
    updateOrderStatus_matches_transition_graph c2SampleP c2SampleO
      OrderStatus.preparing (by decide)⟩

/-- C10: for an authorized caller, `deleteOrder` succeeds (and removes the
row) only when the order status is `pending`; in every other status it
fails with the 400 error `Can only delete pending orders` and the order row
is unchanged. -/
theorem deleteOrder_requires_pending
    (p : Principal) (o : OrderRow) (hacc : orderAccessOk p o = true) :
    (o.order_status = OrderStatus.pending →
        deleteOrder p o = (Resp.success 200 "Order deleted successfully" (), none)) ∧
    (o.order_status ≠ OrderStatus.pending →
        deleteOrder p o = (Resp.error 400 "Can only delete pending orders", some o)) := by
  obtain ⟨h1, h2⟩ := order_guards_false p o hacc
  constructor
  · intro hp
    simp [deleteOrder, h1, h2, hp]
  · intro hp
    simp [deleteOrder, h1, h2, bne_iff_ne, hp]

/-- Witness for C10: a country-matched admin deleting a preparing-stage
order. -/
theorem deleteOrder_requires_pending_witness :
    orderAccessOk c10SampleP c10SampleO = true ∧
    ((c10SampleO.order_status = OrderStatus.pending →
        deleteOrder c10SampleP c10SampleO =
          (Resp.success 200 "Order deleted successfully" (), none)) ∧
     (c10SampleO.order_status ≠ OrderStatus.pending →
        deleteOrder c10SampleP c10SampleO =
          (Resp.error 400 "Can only delete pending orders", some c10SampleO))) :=
  ⟨by decide, deleteOrder_requires_pending c10SampleP c10SampleO (by decide)⟩

/-- C3: for the category and order list endpoints and any `page ≥ 1`,
`limit ≥ 1`, the data window starts at zero-based offset `(page-1)*limit`
of the matching rows, never holds more than `limit` rows, the envelope
reports the pre-pagination total with `totalPages` equal to the rational
ceiling of `total / limit`, and a page beyond `totalPages` yields an empty
list inside a success envelope rather than an error. -/
theorem list_endpoints_pagination
    (p : Principal) (cdb : List CategoryRow) (cq : CategoryQuery)
    (odb : List OrderListRow) (oq : OrderQuery)
    (hcp : 1 ≤ cq.page) (hcl : 1 ≤ cq.limit)
    (hop : 1 ≤ oq.page) (hol : 1 ≤ oq.limit) :
    ((getCategories p cdb cq).data.length ≤ cq.limit ∧
     (∀ i, i < cq.limit →
        (getCategories p cdb cq).data[i]? =
          (categoriesMatching p cdb cq)[(cq.page - 1) * cq.limit + i]?) ∧
     (getCategories p cdb cq).total = (categoriesMatching p cdb cq).length ∧
     (((getCategories p cdb cq).totalPages : ℤ) =
        ⌈((getCategories p cdb cq).total : ℚ) / (cq.limit : ℚ)⌉) ∧
     ((getCategories p cdb cq).totalPages < cq.page →
        (getCategories p cdb cq).data = [])) ∧
    ((getOrders p odb oq).data.length ≤ oq.limit ∧
     (∀ i, i < oq.limit →
        (getOrders p odb oq).data[i]? =
          (ordersMatching p odb oq)[(oq.page - 1) * oq.limit + i]?) ∧
     (getOrders p odb oq).total = (ordersMatching p odb oq).length ∧
     (((getOrders p odb oq).totalPages : ℤ) =
        ⌈((getOrders p odb oq).total : ℚ) / (oq.limit : ℚ)⌉) ∧
     ((getOrders p odb oq).totalPages < oq.page →
        (getOrders p odb oq).data = [])) := by
  obtain ⟨a1, a2, a3, a4⟩ :=
    paginationBundle (categoriesMatching p cdb cq) cq.page cq.limit hcl
  obtain ⟨b1, b2, b3, b4⟩ :=
    paginationBundle (ordersMatching p odb oq) oq.page oq.limit hol
  exact ⟨⟨a1, a2, rfl, a3, a4⟩, ⟨b1, b2, rfl, b3, b4⟩⟩

/-- Witness for C3: a super-admin listing three categories with
`page = 2, limit = 2` and one order with `page = 1, limit = 10`. -/
theorem list_endpoints_pagination_witness :
    1 ≤ (CategoryQuery.mk none none none none 2 2).page ∧
    1 ≤ (CategoryQuery.mk none none none none 2 2).limit ∧
    1 ≤ (OrderQuery.mk none none none none none none none none 1 10).page ∧
    1 ≤ (OrderQuery.mk none none none none none none none none 1 10).limit ∧
    (((getCategories c3SampleP c3CatDb (CategoryQuery.mk none none none none 2 2)).data.length ≤
        (CategoryQuery.mk none none none none 2 2).limit ∧
      (∀ i, i < (CategoryQuery.mk none none none none 2 2).limit →
        (getCategories c3SampleP c3CatDb (CategoryQuery.mk none none none none 2 2)).data[i]? =
          (categoriesMatching c3SampleP c3CatDb (CategoryQuery.mk none none none none 2 2))[
            ((CategoryQuery.mk none none none none 2 2).page - 1) *
              (CategoryQuery.mk none none none none 2 2).limit + i]?) ∧
      (getCategories c3SampleP c3CatDb (CategoryQuery.mk none none none none 2 2)).total =
        (categoriesMatching c3SampleP c3CatDb (CategoryQuery.mk none none none none 2 2)).length ∧
      (((getCategories c3SampleP c3CatDb (CategoryQuery.mk none none none none 2 2)).totalPages : ℤ) =
        ⌈((getCategories c3SampleP c3CatDb (CategoryQuery.mk none none none none 2 2)).total : ℚ) /
          ((CategoryQuery.mk none none none none 2 2).limit : ℚ)⌉) ∧
      ((getCategories c3SampleP c3CatDb (CategoryQuery.mk none none none none 2 2)).totalPages <
          (CategoryQuery.mk none none none none 2 2).page →
        (getCategories c3SampleP c3CatDb (CategoryQuery.mk none none none none 2 2)).data = [])) ∧
     ((getOrders c3SampleP c3OrdDb (OrderQuery.mk none none none none none none none none 1 10)).data.length ≤
        (OrderQuery.mk none none none none none none none none 1 10).limit ∧
      (∀ i, i < (OrderQuery.mk none none none none none none none none 1 10).limit →
        (getOrders c3SampleP c3OrdDb (OrderQuery.mk none none none none none none none none 1 10)).data[i]? =
          (ordersMatching c3SampleP c3OrdDb (OrderQuery.mk none none none none none none none none 1 10))[
            ((OrderQuery.mk none none none none none none none none 1 10).page - 1) *
              (OrderQuery.mk none none none none none none none none 1 10).limit + i]?) ∧
      (getOrders c3SampleP c3OrdDb (OrderQuery.mk none none none none none none none none 1 10)).total =
        (ordersMatching c3SampleP c3OrdDb (OrderQuery.mk none none none none none none none none 1 10)).length ∧
      (((getOrders c3SampleP c3OrdDb (OrderQuery.mk none none none none none none none none 1 10)).totalPages : ℤ) =
        ⌈((getOrders c3SampleP c3OrdDb (OrderQuery.mk none none none none none none none none 1 10)).total : ℚ) /
          ((OrderQuery.mk none none none none none none none none 1 10).limit : ℚ)⌉) ∧
      ((getOrders c3SampleP c3OrdDb (OrderQuery.mk none none none none none none none none 1 10)).totalPages <
          (OrderQuery.mk none none none none none none none none 1 10).page →
        (getOrders c3SampleP c3OrdDb (OrderQuery.mk none none none none none none none none 1 10)).data = []))) :=
  ⟨by decide, by decide, by decide, by decide,
   list_endpoints_pagination c3SampleP c3CatDb
     (CategoryQuery.mk none none none none 2 2) c3OrdDb
     (OrderQuery.mk none none none none none none none none 1 10)
     (by decide) (by decide) (by decide) (by decide)⟩

/-- Counterexample to C4 as stated: the orders list of the city-scoped
principal `c4SampleP` (country C, city Y) returns an order of a store in
country D — the location filters of `getOrders` target the plain embedded
`stores` resource, so they only null the embedded store object (shown by
`orderStoreEmbedKept` being false) and exclude no order row. -/
theorem getOrders_returns_foreign_order :
    c4ForeignOrder ∈ (getOrders c4SampleP [c4ForeignOrder] {}).data ∧
    c4ForeignOrder.store_country_id ≠ "C" ∧
    orderStoreEmbedKept c4SampleP c4ForeignOrder = false :=
  ⟨by decide, by decide, by decide⟩

/-- C4 (amended): for a principal with location claims (non-super-admin,
country `c`, city `y` — the only shape with a non-null city the enforced
data-model invariant allows), every row returned by the rating and category
list endpoints lies in country `c`; ratings match the city exactly, while
categories (a country-wide entity) may also return a null-city row of the
country.  The orders list endpoint, whose location filters target the
embedded `stores` resource without `!inner`, applies no location
restriction to the returned order rows — its result does not depend on the
principal at all, only the embedded store object is nulled — so order rows
of any country may be returned. -/
theorem city_scoped_lists_bounded
    (p : Principal) (c y : String)
    (hrole : p.role ≠ AdminRole.super_admin)
    (hc : p.country_id = some c) (hy : p.city_id = some y)
    (rdb : List RatingRow) (rq : RatingQuery)
    (cdb : List CategoryRow) (cq : CategoryQuery)
    (odb : List OrderListRow) (oq : OrderQuery) :
    (∀ r ∈ (getRatings p rdb rq).data, r.country_id = c ∧ r.city_id = some y) ∧
    (∀ r ∈ (getCategories p cdb cq).data,
        r.country_id = c ∧ (r.city_id = none ∨ r.city_id = some y)) ∧
    (∀ p' : Principal, getOrders p odb oq = getOrders p' odb oq) := by
  have hb : (p.role != AdminRole.super_admin) = true := by
    simp [bne_iff_ne, hrole]
  refine ⟨?_, ?_, ?_⟩
  · intro r hr
    have hm : r ∈ ratingsMatching p rdb rq := mem_of_mem_pageWindow hr
    rw [ratingsMatching, List.mem_filter, Bool.and_eq_true] at hm
    have hloc := hm.2.2
    simp [ratingLocFilter, hb, hc, hy] at hloc
    exact hloc
  · intro r hr
    have hm : r ∈ categoriesMatching p cdb cq := mem_of_mem_pageWindow hr
    rw [categoriesMatching, List.mem_filter, Bool.and_eq_true] at hm
    have hloc := hm.2.2
    simp [categoryLocFilter, hb, hc, hy] at hloc
    exact hloc
  · intro p'
    rfl

/-- Witness for C4 (amended): a city-scoped operator listing ratings,
categories and orders over small tables. -/
theorem city_scoped_lists_bounded_witness :
    c4SampleP.role ≠ AdminRole.super_admin ∧
    c4SampleP.country_id = some "C" ∧
    c4SampleP.city_id = some "Y" ∧
    ((∀ r ∈ (getRatings c4SampleP c4RatDb {}).data,
        r.country_id = "C" ∧ r.city_id = some "Y") ∧
     (∀ r ∈ (getCategories c4SampleP c3CatDb {}).data,
        r.country_id = "C" ∧ (r.city_id = none ∨ r.city_id = some "Y")) ∧
     (∀ p' : Principal,
        getOrders c4SampleP c3OrdDb {} = getOrders p' c3OrdDb {})) :=
  ⟨by decide, by decide, by decide,
   city_scoped_lists_bounded c4SampleP "C" "Y" (by decide) (by decide) (by decide)
     c4RatDb {} c3CatDb {} c3OrdDb {}⟩

/-- C5: for a super-admin, the category and promo-code list queries add no
location predicate at all unless the caller supplies a `country_id`
parameter; when the caller does, that value (and a `city_id` supplied with
it) is applied verbatim as an equality filter, and the principal's own
location claims are ignored either way. -/
theorem super_admin_location_params_verbatim
    (p : Principal) (hp : p.role = AdminRole.super_admin)
    (cdb : List CategoryRow) (cq : CategoryQuery)
    (pdb : List PromoCode) (pq : PromoQuery) (now : Int) :
    (cq.country_id = none →
        categoriesMatching p cdb cq =
          cdb.filter (fun r => categoryBaseFilter cq r)) ∧
    (∀ c0, cq.country_id = some c0 →
        categoriesMatching p cdb cq =
          cdb.filter (fun r =>
            categoryBaseFilter cq r &&
              (r.country_id == c0 &&
                (match cq.city_id with
                 | some y => r.city_id == some y
                 | none => true)))) ∧
    (pq.country_id = none →
        promosMatching p pdb pq now =
          pdb.filter (fun r => promoBaseFilter pq now r)) ∧
    (∀ c0, pq.country_id = some c0 →
        promosMatching p pdb pq now =
          pdb.filter (fun r =>
            promoBaseFilter pq now r &&
              (r.country_id == c0 &&
                (match pq.city_id with
                 | some y => r.city_id == some y
                 | none => true)))) := by
  have hb : (p.role != AdminRole.super_admin) = false := by simp [hp]
  refine ⟨?_, ?_, ?_, ?_⟩
  · intro h
    unfold categoriesMatching
    apply List.filter_congr
    intro r _
    simp [categoryLocFilter, hb, h]
  · intro c0 h
    unfold categoriesMatching
    apply List.filter_congr
    intro r _
    simp [categoryLocFilter, hb, h]
  · intro h
    unfold promosMatching
    apply List.filter_congr
    intro r _
    simp [promoLocFilter, hb, h]
  · intro c0 h
    unfold promosMatching
    apply List.filter_congr
    intro r _
    simp [promoLocFilter, hb, h]

/-- Witness for C5: a super-admin with stale location claims listing
categories without caller filters and promo codes with a caller-supplied
country filter. -/
theorem super_admin_location_params_verbatim_witness :
    c5SampleP.role = AdminRole.super_admin ∧
    ((CategoryQuery.mk none none none none 1 10).country_id = none →
        categoriesMatching c5SampleP c3CatDb (CategoryQuery.mk none none none none 1 10) =
          c3CatDb.filter (fun r =>
            categoryBaseFilter (CategoryQuery.mk none none none none 1 10) r)) ∧
    (∀ c0, (PromoQuery.mk none (some "D") none none none none 1 10).country_id = some c0 →
        promosMatching c5SampleP c5PromoDb
            (PromoQuery.mk none (some "D") none none none none 1 10) 0 =
          c5PromoDb.filter (fun r =>
            promoBaseFilter (PromoQuery.mk none (some "D") none none none none 1 10) 0 r &&
              (r.country_id == c0 &&
                (match (PromoQuery.mk none (some "D") none none none none 1 10).city_id with
                 | some y => r.city_id == some y
                 | none => true)))) :=
  ⟨rfl,
   (super_admin_location_params_verbatim c5SampleP rfl c3CatDb
      (CategoryQuery.mk none none none none 1 10) c5PromoDb
      (PromoQuery.mk none (some "D") none none none none 1 10) 0).1,
   (super_admin_location_params_verbatim c5SampleP rfl c3CatDb
      (CategoryQuery.mk none none none none 1 10) c5PromoDb
      (PromoQuery.mk none (some "D") none none none none 1 10) 0).2.2.2⟩

/-- C1: evaluating the discount computation of `createOrder` at the spec
scenario (a percentage promo code with discount 20 capped at 10 on an item
total of 100): the code reads the nonexistent properties `discount_type`,
`discount_value` and `max_discount` of the fetched promo row (whose columns
are `type`, `discount_amount`, `maximum_discount`), so the computed
discount is `undefined` and the final price is NaN — not the claimed
`min(20, 10) = 10` and `100 - 10 = 90`. -/
theorem createOrder_discount_reads_missing_columns :
    createOrderDiscount scenarioPromo 100 = JsValue.undefined ∧
    createOrderFinalPrice (some scenarioPromo) 100 = JsValue.nan ∧
    createOrderFinalPrice (some scenarioPromo) 100 ≠ JsValue.num 90 :=
  ⟨by decide, by decide, by decide⟩

/-- C6: a non-super-admin principal with country claim `c` gets a 403
Forbidden, with the target row left unchanged, from each embedded mutation
whose target lies in a different country: order update, category update and
admin deletion. -/
theorem wrong_country_mutations_forbidden
    (p : Principal) (c : String)
    (hrole : p.role ≠ AdminRole.super_admin) (hc : p.country_id = some c)
    (pos : List PaymentOptionRow) (o : OrderRow) (od : OrderUpdateDto)
    (ho : o.store_country_id ≠ c)
    (mdb : List MediaRow) (cat : CategoryRow) (cd : CategoryUpdateDto)
    (hcat : cat.country_id ≠ c)
    (a : AdminRow) (ha : a.country_id ≠ some c) :
    ((updateOrder p pos o od).1.statusOf = 403 ∧ (updateOrder p pos o od).2 = o) ∧
    ((updateCategory p mdb cat cd).1.statusOf = 403 ∧
      (updateCategory p mdb cat cd).2 = cat) ∧
    ((deleteAdmin p a).1.statusOf = 403 ∧ (deleteAdmin p a).2 = some a) := by
  have hb : (p.role != AdminRole.super_admin) = true := by
    simp [bne_iff_ne, hrole]
  refine ⟨?_, ?_, ?_⟩
  · have hcm : orderCountryMismatch p o = true := by
      simp [orderCountryMismatch, hc, bne_iff_ne]
      exact ho
    simp [updateOrder, hb, hcm, Resp.statusOf]
  · have hg : (p.country_id != some cat.country_id) = true := by
      simp [hc, bne_iff_ne]
      exact fun h => hcat h.symm
    simp [updateCategory, hb, hg, Resp.statusOf]
  · by_cases hsup : (a.role == AdminRole.super_admin) = true
    · simp [deleteAdmin, hb, hsup, Resp.statusOf]
    · rw [Bool.not_eq_true] at hsup
      have hg : (a.country_id != p.country_id) = true := by
        rw [hc]
        simp [bne_iff_ne]
        exact ha
      simp [deleteAdmin, hb, hsup, hg, Resp.statusOf]

/-- Witness for C6: a country-C admin touching an order, a category and an
admin account that all live in country D. -/
theorem wrong_country_mutations_forbidden_witness :
    c6SampleP.role ≠ AdminRole.super_admin ∧
    c6SampleP.country_id = some "C" ∧
    c6SampleO.store_country_id ≠ "C" ∧
    c6SampleCat.country_id ≠ "C" ∧
    c6SampleA.country_id ≠ some "C" ∧
    (((updateOrder c6SampleP [] c6SampleO {}).1.statusOf = 403 ∧
        (updateOrder c6SampleP [] c6SampleO {}).2 = c6SampleO) ∧
     ((updateCategory c6SampleP [] c6SampleCat {}).1.statusOf = 403 ∧
        (updateCategory c6SampleP [] c6SampleCat {}).2 = c6SampleCat) ∧
     ((deleteAdmin c6SampleP c6SampleA).1.statusOf = 403 ∧
        (deleteAdmin c6SampleP c6SampleA).2 = some c6SampleA)) :=
  ⟨by decide, by decide, by decide, by decide, by decide,
   wrong_country_mutations_forbidden c6SampleP "C" (by decide) (by decide)
     [] c6SampleO {} (by decide) [] c6SampleCat {} (by decide)
     c6SampleA (by decide)⟩

/-- C7: country records are created, updated or deleted only by
super-admins — any other role is rejected with 403 before any read or
write, the countries table unchanged — and a non-super-admin can neither
modify an existing super-admin account nor set any admin account's role to
super-admin (every such update attempt ends in a 403 with the target row
unchanged). -/
theorem super_admin_only_privileges
    (p : Principal) (hrole : p.role ≠ AdminRole.super_admin)
    (countries : List CountryRow) (cdto : CountryCreateDto) (newId : String)
    (cid : String) (udto : CountryUpdateDto) (k1 k2 k3 : Nat)
    (admins : List AdminRow) (mdb : List MediaRow) (hash : String → String)
    (a : AdminRow) (d : AdminUpdateDto) :
    createCountry p countries cdto newId =
      (Resp.error 403 "Only super admin can create countries", countries) ∧
    updateCountry p countries cid udto =
      (Resp.error 403 "Only super admin can update countries", countries) ∧
    deleteCountry p countries cid k1 k2 k3 =
      (Resp.error 403 "Only super admin can delete countries", countries) ∧
    (a.role = AdminRole.super_admin →
        updateAdmin p admins mdb hash a d =
          (Resp.error 403 "Cannot modify super admin", a)) ∧
    (d.role = some AdminRole.super_admin →
        (updateAdmin p admins mdb hash a d).1.statusOf = 403 ∧
        (updateAdmin p admins mdb hash a d).2 = a) := by
  have hb : (p.role != AdminRole.super_admin) = true := by
    simp [bne_iff_ne, hrole]
  refine ⟨by simp [createCountry, hb], by simp [updateCountry, hb],
    by simp [deleteCountry, hb], ?_, ?_⟩
  · intro hA
    simp [updateAdmin, hb, hA]
  · intro hd
    have hd' : (d.role == some AdminRole.super_admin) = true := by simp [hd]
    by_cases h1 : (a.role == AdminRole.super_admin) = true
    · simp [updateAdmin, hb, h1, Resp.statusOf]
    · rw [Bool.not_eq_true] at h1
      by_cases h2 : (a.country_id != p.country_id) = true
      · simp [updateAdmin, hb, h1, h2, Resp.statusOf]
      · rw [Bool.not_eq_true] at h2
        by_cases h3 : (match p.city_id with
            | some y => a.city_id != some y
            | none => false) = true
        · simp [updateAdmin, hb, h1, h2, h3, Resp.statusOf]
        · rw [Bool.not_eq_true] at h3
          simp [updateAdmin, hb, h1, h2, h3, hd', Resp.statusOf]

/-- Witness for C7: a finance-role admin attempting the country operations,
an update of a super-admin account, and a role elevation. -/
theorem super_admin_only_privileges_witness :
    c7SampleP.role ≠ AdminRole.super_admin ∧
    (createCountry c7SampleP c7Countries { name := "Dlandia", code := "DL" } "D" =
      (Resp.error 403 "Only super admin can create countries", c7Countries) ∧
     updateCountry c7SampleP c7Countries "C" {} =
      (Resp.error 403 "Only super admin can update countries", c7Countries) ∧
     deleteCountry c7SampleP c7Countries "C" 0 0 0 =
      (Resp.error 403 "Only super admin can delete countries", c7Countries) ∧
     (c7SampleA.role = AdminRole.super_admin →
        updateAdmin c7SampleP [c7SampleA] [] id c7SampleA
            { role := some AdminRole.super_admin } =
          (Resp.error 403 "Cannot modify super admin", c7SampleA)) ∧
     ({ role := some AdminRole.super_admin : AdminUpdateDto }.role =
          some AdminRole.super_admin →
        (updateAdmin c7SampleP [c7SampleA] [] id c7SampleA
            { role := some AdminRole.super_admin }).1.statusOf = 403 ∧
        (updateAdmin c7SampleP [c7SampleA] [] id c7SampleA
            { role := some AdminRole.super_admin }).2 = c7SampleA)) :=
  ⟨by decide,
   super_admin_only_privileges c7SampleP (by decide) c7Countries
     { name := "Dlandia", code := "DL" } "D" "C" {} 0 0 0
     [c7SampleA] [] id c7SampleA { role := some AdminRole.super_admin }⟩

/-- Counterexample to C8 as stated: a super-admin deleting its own account
receives HTTP 400 (`Cannot delete your own account`), not the claimed
Forbidden 403; the account row is untouched. -/
theorem deleteAdmin_self_returns_400_not_403 :
    deleteAdmin c8SampleP c8SampleA =
      (Resp.error 400 "Cannot delete your own account", some c8SampleA) ∧
    (deleteAdmin c8SampleP c8SampleA).1.statusOf ≠ 403 :=
  ⟨by decide, by decide⟩

/-- C8 (amended): for every principal whose token claims match its stored
admin row, `deleteAdmin` on the principal's own id fails with the HTTP 400
error `Cannot delete your own account` — a human-readable refusal, though
not the 403 the claim states — and the account row is not deleted. -/
theorem deleteAdmin_self_blocked
    (p : Principal) (a : AdminRow)
    (hid : a.id = p.id) (hr : a.role = p.role)
    (hco : a.country_id = p.country_id) (hci : a.city_id = p.city_id) :
    deleteAdmin p a =
      (Resp.error 400 "Cannot delete your own account", some a) := by
  by_cases hsup : (p.role == AdminRole.super_admin) = true
  · have hb : (p.role != AdminRole.super_admin) = false := by simp [bne, hsup]
    simp [deleteAdmin, hb, hid]
  · rw [Bool.not_eq_true] at hsup
    have h1 : (a.role == AdminRole.super_admin) = false := by
      rw [hr]; exact hsup
    have h2 : (a.country_id != p.country_id) = false := by simp [hco]
    have h3 : (match p.city_id with
        | some y => a.city_id != some y
        | none => false) = false := by
      cases hcy : p.city_id with
      | none => rfl
      | some y => simp [hci, hcy]
    simp [deleteAdmin, h1, h2, h3, hid]

/-- Witness for C8 (amended): the sample super-admin deleting itself. -/
theorem deleteAdmin_self_blocked_witness :
    c8SampleA.id = c8SampleP.id ∧ c8SampleA.role = c8SampleP.role ∧
    c8SampleA.country_id = c8SampleP.country_id ∧
    c8SampleA.city_id = c8SampleP.city_id ∧
    deleteAdmin c8SampleP c8SampleA =
      (Resp.error 400 "Cannot delete your own account", some c8SampleA) :=
  ⟨rfl, rfl, rfl, rfl, deleteAdmin_self_blocked c8SampleP c8SampleA rfl rfl rfl rfl⟩

/-- Counterexample to C9 as stated: deleting a category referenced by one
store fails, but with HTTP 400 — the codebase's validation status — rather
than a 409 conflict status as the error taxonomy assigns to ConflictError
(compare the 409s issued for the username, promo-code and country-code
conflicts). -/
theorem deleteCategory_in_use_returns_400_not_409 :
    deleteCategory c9SampleP c9SampleCat 1 =
      (Resp.error 400 "Cannot delete category that is in use by stores",
        some c9SampleCat) ∧
    (deleteCategory c9SampleP c9SampleCat 1).1.statusOf ≠ 409 :=
  ⟨by decide, by decide⟩

/-- C9 (amended): for an authorized caller, deleting a category that is
referenced by at least one store fails — with the HTTP 400 error `Cannot
delete category that is in use by stores` rather than a 409 conflict — and
the category row (hence every referencing row) is left unchanged, no delete
being issued. -/
theorem deleteCategory_in_use_blocked
    (p : Principal) (c : CategoryRow) (storeCount : Nat)
    (hacc : categoryAccessOk p c = true) (hn : 1 ≤ storeCount) :
    deleteCategory p c storeCount =
      (Resp.error 400 "Cannot delete category that is in use by stores",
        some c) := by
  obtain ⟨h1, h2⟩ := category_guards_false p c hacc
  have hpos : storeCount > 0 := hn
  simp [deleteCategory, h1, h2, hpos]

/-- Witness for C9 (amended): the sample super-admin deleting the in-use
sample category. -/
theorem deleteCategory_in_use_blocked_witness :
    categoryAccessOk c9SampleP c9SampleCat = true ∧ 1 ≤ 1 ∧
    deleteCategory c9SampleP c9SampleCat 1 =
      (Resp.error 400 "Cannot delete category that is in use by stores",
        some c9SampleCat) :=
  ⟨by decide, by decide,
   deleteCategory_in_use_blocked c9SampleP c9SampleCat 1 (by decide) (by decide)⟩

end Zook
